import Mathlib

/-
Verification of the Soldrive access-directory client: a shallow embedding of
the PDA derivation, ledger-request wrappers and view-reconciliation logic of
src/hooks/useSoldriveProgram.ts, together with the pending-operation guards of
the FileList and SharedFiles components.

Identities (wallet public keys) and byte buffers are modelled as strings:
`Buffer.from(s)` for a string s is s itself, and a public key's `toBuffer()`
is the key string.  This is faithful because the UTF-8 encoding of strings and
the base58 decoding of keys are injective.
-/

namespace Soldrive

/-- Seed material handed to the address derivation: either a raw byte buffer
(`Buffer.from(...)` / `pubkey.toBuffer()`) or the buffer of an already derived
program address (`pda.toBuffer()`).  A derived address is itself a `pda` node
carrying its seed list and program id: the external `findProgramAddressSync`
derivation is deterministic and collision-resistant (spec glossary,
"PDA-equivalent derived address"), which the model captures by keeping the
seeds inside the address, making the derivation injective by construction. -/
inductive Seed where
  | bytes (s : String)
  | pda (seeds : List Seed) (programId : String)
deriving Repr

mutual

def Seed.beqFn : Seed → Seed → Bool
  | .bytes a, .bytes b => a == b
  | .pda as p, .pda bs q => Seed.beqListFn as bs && p == q
  | _, _ => false

def Seed.beqListFn : List Seed → List Seed → Bool
  | [], [] => true
  | a :: as, b :: bs => Seed.beqFn a b && Seed.beqListFn as bs
  | _, _ => false

end

mutual

theorem Seed.beqFn_iff : ∀ a b : Seed, Seed.beqFn a b = true ↔ a = b
  | .bytes _, .bytes _ => by simp [Seed.beqFn]
  | .bytes _, .pda _ _ => by simp [Seed.beqFn]
  | .pda _ _, .bytes _ => by simp [Seed.beqFn]
  | .pda as _, .pda bs _ => by simp [Seed.beqFn, Seed.beqListFn_iff as bs]

theorem Seed.beqListFn_iff : ∀ as bs : List Seed, Seed.beqListFn as bs = true ↔ as = bs
  | [], [] => by simp [Seed.beqListFn]
  | [], _ :: _ => by simp [Seed.beqListFn]
  | _ :: _, [] => by simp [Seed.beqListFn]
  | a :: as, b :: bs => by
      simp [Seed.beqListFn, Seed.beqFn_iff a b, Seed.beqListFn_iff as bs]

end

instance : DecidableEq Seed := fun a b =>
  decidable_of_iff (Seed.beqFn a b = true) (Seed.beqFn_iff a b)

/-- Program id imported from `@/lib/solana/config`; an arbitrary fixed
constant, every derivation in the client uses the same one. -/
def PROGRAM_ID : String := "SOLDRIVE_PROGRAM"

/-- Model of `PublicKey.findProgramAddressSync(seeds, programId)[0]`: the
deterministic derivation of a program address from a seed list. -/
def findProgramAddressSync (seeds : List Seed) (programId : String) : Seed :=
  .pda seeds programId

/-- useSoldriveProgram.getUserProfilePDA: seeds `['user_profile', user]`. -/
def getUserProfilePDA (userPubkey : String) : Seed :=
  findProgramAddressSync [.bytes "user_profile", .bytes userPubkey] PROGRAM_ID

/-- useSoldriveProgram.getConfigPDA: seeds `['config']`. -/
def getConfigPDA : Seed :=
  findProgramAddressSync [.bytes "config"] PROGRAM_ID

/-- useSoldriveProgram.getFileRecordPDA: seeds `['file', owner, fileName]`. -/
def getFileRecordPDA (owner : String) (fileName : String) : Seed :=
  findProgramAddressSync [.bytes "file", .bytes owner, .bytes fileName] PROGRAM_ID

/-- useSoldriveProgram.getSharedAccessPDA: seeds
`['shared_access', fileRecordPDA, sharedWith]`. -/
def getSharedAccessPDA (fileRecordPDA : Seed) (sharedWith : String) : Seed :=
  findProgramAddressSync [.bytes "shared_access", fileRecordPDA, .bytes sharedWith] PROGRAM_ID

/-- FileRecord account layout assumed by the client (FileList.tsx interface
FileRecord and the fields read across the components). -/
inductive FileStatus where
  | uploading
  | processing
  | active
deriving DecidableEq, Repr

inductive AccessLevel where
  | readAccess
  | writeAccess
  | adminAccess
deriving DecidableEq, Repr

structure FileRecordAccount where
  owner : String
  fileName : String
  fileSize : Nat
  fileHash : List Nat
  chunkCount : Nat
  createdAt : Int
  primaryStorage : Option String
  status : FileStatus
  isPublic : Bool
deriving DecidableEq, Repr

/-- SharedAccess account layout: field order file_record, owner, shared_with
matches the memcmp offsets 8 / 40 / 72 used by the scans. -/
structure SharedAccessAccount where
  fileRecord : Seed
  owner : String
  sharedWith : String
  accessLevel : AccessLevel
  expiresAt : Option Int
  isActive : Bool
deriving DecidableEq, Repr

/-- An account returned by an anchor scan: address plus decoded data. -/
structure ProgramAccount (α : Type) where
  publicKey : Seed
  account : α
deriving DecidableEq, Repr

/-- An entry of the shared views: the grant account joined with its parent
FileRecord, `none` when the parent fetch failed (SharedFiles.tsx SharedEntry:
`file: null | ...`). -/
structure SharedEntry where
  sharedAccess : ProgramAccount SharedAccessAccount
  file : Option (ProgramAccount FileRecordAccount)
deriving DecidableEq, Repr

/-- Body of the `active.map` in both views: fetch the parent record at
`sa.account.fileRecord`; on failure (try/catch) degrade to `file = none`. -/
def joinEntry (fetchFile : Seed → Option FileRecordAccount)
    (sa : ProgramAccount SharedAccessAccount) : SharedEntry :=
  match fetchFile sa.account.fileRecord with
  | some f => { sharedAccess := sa, file := some ⟨sa.account.fileRecord, f⟩ }
  | none => { sharedAccess := sa, file := none }

/-- useSoldriveProgram.getFilesSharedWithMe: scan all sharedAccess accounts
with memcmp offset 72 (the shared_with field) equal to the wallet key — here
the scan input `ledgerGrants` is the full sharedAccess collection and the
memcmp is the first filter — then keep `isActive` grants and join each with
its parent FileRecord, degrading failed fetches to `file = none`.  The
`fetchFile` argument is the RPC fetch, `none` meaning the fetch failed. -/
def getFilesSharedWithMe (walletKey : String)
    (ledgerGrants : List (ProgramAccount SharedAccessAccount))
    (fetchFile : Seed → Option FileRecordAccount) : List SharedEntry :=
  let accounts := ledgerGrants.filter (fun a => a.account.sharedWith == walletKey)
  let active := accounts.filter (fun a => a.account.isActive)
  active.map (joinEntry fetchFile)

/-- useSoldriveProgram.getFilesIShared: same as getFilesSharedWithMe but the
memcmp is at offset 40, the owner field. -/
def getFilesIShared (walletKey : String)
    (ledgerGrants : List (ProgramAccount SharedAccessAccount))
    (fetchFile : Seed → Option FileRecordAccount) : List SharedEntry :=
  let accounts := ledgerGrants.filter (fun a => a.account.owner == walletKey)
  let active := accounts.filter (fun a => a.account.isActive)
  active.map (joinEntry fetchFile)

theorem mem_filter_filter_map {α β : Type} (f : α → β) (p q : α → Bool)
    (l : List α) (b : β) :
    b ∈ ((l.filter p).filter q).map f ↔
      ∃ a ∈ l, p a = true ∧ q a = true ∧ b = f a := by
  simp only [List.mem_map, List.mem_filter]
  constructor
  · rintro ⟨a, ⟨⟨h1, h2⟩, h3⟩, h4⟩
    exact ⟨a, h1, h2, h3, h4.symm⟩
  · rintro ⟨a, h1, h2, h3, h4⟩
    exact ⟨a, ⟨⟨h1, h2⟩, h3⟩, h4.symm⟩

/-- C4: `getFileRecordPDA` and `getSharedAccessPDA` are pure deterministic
functions of their inputs (they take no ledger state at all): identical
(owner, fileName) inputs give the identical address, identical
(fileRecord address, grantee) inputs give the identical address, and for the
same owner distinct fileName values give distinct addresses. -/
theorem c4_pda_pure_deterministic :
    (∀ o₁ o₂ n₁ n₂ : String, o₁ = o₂ → n₁ = n₂ →
        getFileRecordPDA o₁ n₁ = getFileRecordPDA o₂ n₂) ∧
    (∀ (a₁ a₂ : Seed) (g₁ g₂ : String), a₁ = a₂ → g₁ = g₂ →
        getSharedAccessPDA a₁ g₁ = getSharedAccessPDA a₂ g₂) ∧
    (∀ o n₁ n₂ : String, n₁ ≠ n₂ →
        getFileRecordPDA o n₁ ≠ getFileRecordPDA o n₂) := by
  refine ⟨?_, ?_, ?_⟩
  · intro o₁ o₂ n₁ n₂ ho hn; rw [ho, hn]
  · intro a₁ a₂ g₁ g₂ ha hg; rw [ha, hg]
  · intro o n₁ n₂ hn hcontra
    apply hn
    have := Seed.pda.inj hcontra
    have hlist := this.1
    simpa using hlist

theorem c4_pda_pure_deterministic_witness :
    getFileRecordPDA "ownerA" "report.pdf" = getFileRecordPDA "ownerA" "report.pdf" ∧
    getSharedAccessPDA (getFileRecordPDA "ownerA" "report.pdf") "granteeB"
      = getSharedAccessPDA (getFileRecordPDA "ownerA" "report.pdf") "granteeB" ∧
    getFileRecordPDA "ownerA" "report.pdf" ≠ getFileRecordPDA "ownerA" "photo.png" := by
  refine ⟨?_, ?_, ?_⟩
  · exact c4_pda_pure_deterministic.1 "ownerA" "ownerA" "report.pdf" "report.pdf" rfl rfl
  · exact c4_pda_pure_deterministic.2.1 _ _ "granteeB" "granteeB" rfl rfl
  · exact c4_pda_pure_deterministic.2.2 "ownerA" "report.pdf" "photo.png" (by decide)

/-- Data stored at an address on the ledger. -/
inductive AccountData where
  | profileData
  | configData
  | fileData (r : FileRecordAccount)
  | sharedData (g : SharedAccessAccount)
deriving DecidableEq, Repr

/-- Ledger state seen through `getAccountInfo` / account fetches: an
association of addresses to account data. -/
abbrev Ledger := List (Seed × AccountData)

def lookupAcct : Ledger → Seed → Option AccountData
  | [], _ => none
  | (a, v) :: rest, k => if a = k then some v else lookupAcct rest k

def setAcct : Ledger → Seed → AccountData → Ledger
  | [], _, _ => []
  | (a, v) :: rest, k, w => if a = k then (a, w) :: rest else (a, v) :: setAcct rest k w

def insertAcct (l : Ledger) (k : Seed) (v : AccountData) : Ledger := (k, v) :: l

theorem lookupAcct_insertAcct (l : Ledger) (k : Seed) (v : AccountData) :
    lookupAcct (insertAcct l k v) k = some v := by
  simp [insertAcct, lookupAcct]

theorem setAcct_lookup_self (l : Ledger) (k : Seed) (v : AccountData)
    (h : lookupAcct l k = some v) : setAcct l k v = l := by
  induction l with
  | nil => rfl
  | cons hd tl ih =>
      obtain ⟨a, w⟩ := hd
      by_cases hk : a = k
      · subst hk
        simp [lookupAcct] at h
        simp [setAcct, h]
      · simp [lookupAcct, hk] at h
        simp [setAcct, hk, ih h]

theorem lookupAcct_setAcct_same (l : Ledger) (k : Seed) (v w : AccountData)
    (h : lookupAcct l k = some w) :
    lookupAcct (setAcct l k v) k = some v := by
  induction l with
  | nil => simp [lookupAcct] at h
  | cons hd tl ih =>
      obtain ⟨a, u⟩ := hd
      by_cases hk : a = k
      · subst hk
        simp [setAcct, lookupAcct]
      · simp [lookupAcct, hk] at h
        simp [setAcct, lookupAcct, hk, ih h]

/-- Modelled from the spec: the external ledger program's makePublic
instruction ("flips visibility flag", owned-by-caller precondition; the
on-chain program is outside this repository).  Sets isPublic true on the
addressed FileRecord. -/
def ledgerMakePublic (l : Ledger) (addr : Seed) (caller : String) :
    Except String Ledger :=
  match lookupAcct l addr with
  | some (.fileData r) =>
      if r.owner = caller then
        .ok (setAcct l addr (.fileData { r with isPublic := true }))
      else .error "record not owned"
  | _ => .error "record missing"

/-- Modelled from the spec: the ledger's makePrivate instruction, symmetric to
makePublic. -/
def ledgerMakePrivate (l : Ledger) (addr : Seed) (caller : String) :
    Except String Ledger :=
  match lookupAcct l addr with
  | some (.fileData r) =>
      if r.owner = caller then
        .ok (setAcct l addr (.fileData { r with isPublic := false }))
      else .error "record not owned"
  | _ => .error "record missing"

/-- Modelled from the spec: register storage attaches the content locator and
transitions the status ("attaches content locator + integrity root,
transitions status"). -/
def ledgerRegisterStorage (l : Ledger) (addr : Seed) (caller : String)
    (ipfsCid : String) : Except String Ledger :=
  match lookupAcct l addr with
  | some (.fileData r) =>
      if r.owner = caller then
        .ok (setAcct l addr (.fileData
          { r with primaryStorage := some ipfsCid, status := .processing }))
      else .error "record not owned"
  | _ => .error "record missing"

/-- Modelled from the spec: finalize transitions the record to `active`. -/
def ledgerFinalizeFile (l : Ledger) (addr : Seed) (caller : String) :
    Except String Ledger :=
  match lookupAcct l addr with
  | some (.fileData r) =>
      if r.owner = caller then
        .ok (setAcct l addr (.fileData { r with status := .active }))
      else .error "record not owned"
  | _ => .error "record missing"

/-- Modelled from the spec: the createUserProfile instruction creates the
profile account at the derived address; account creation fails if the address
is already occupied. -/
def ledgerCreateUserProfile (l : Ledger) (addr : Seed) : Except String Ledger :=
  match lookupAcct l addr with
  | some _ => .error "account exists"
  | none => .ok (insertAcct l addr .profileData)

/-- Modelled from the spec: the initialize instruction creates the global
config account. -/
def ledgerInitialize (l : Ledger) (addr : Seed) : Except String Ledger :=
  match lookupAcct l addr with
  | some _ => .error "account exists"
  | none => .ok (insertAcct l addr .configData)

/-- Modelled from the spec: createFile creates a FileRecord in `uploading`
status; fails when the name is already in use by the caller (the derived
address is occupied). -/
def ledgerCreateFile (l : Ledger) (addr : Seed) (caller fileName : String)
    (fileSize : Nat) (fileHash : List Nat) (chunkCount : Nat)
    (timestamp : Int) : Except String Ledger :=
  match lookupAcct l addr with
  | some _ => .error "name already in use"
  | none => .ok (insertAcct l addr (.fileData
      ⟨caller, fileName, fileSize, fileHash, chunkCount, timestamp,
        none, .uploading, false⟩))

/-- Modelled from the spec: grantAccess creates or updates a SharedAccessGrant
as active. -/
def ledgerGrantAccess (l : Ledger) (addr fileRecordPDA : Seed)
    (owner sharedWith : String) (accessLevel : AccessLevel)
    (expiresAt : Option Int) : Except String Ledger :=
  let g : SharedAccessAccount :=
    ⟨fileRecordPDA, owner, sharedWith, accessLevel, expiresAt, true⟩
  match lookupAcct l addr with
  | some _ => .ok (setAcct l addr (.sharedData g))
  | none => .ok (insertAcct l addr (.sharedData g))

/-- Modelled from the spec: revokeAccess sets the grant inactive (not
physically deleted); fails if the grant is missing. -/
def ledgerRevokeAccess (l : Ledger) (addr : Seed) (caller : String) :
    Except String Ledger :=
  match lookupAcct l addr with
  | some (.sharedData g) =>
      if g.owner = caller then
        .ok (setAcct l addr (.sharedData { g with isActive := false }))
      else .error "grant not owned"
  | _ => .error "grant missing"

/-
Client wrappers.  Each returns the list of transactions submitted during the
call (instruction names, in order) together with the outcome: the guard
`if (!program || !wallet.publicKey) throw new Error('Wallet not connected')`
is the first statement of every wrapper, so a disconnected wallet
(`walletKey = none`, under which `program` is also null by the useMemo)
errors before any PDA is derived or any request is constructed.
-/

/-- useSoldriveProgram.createUserProfile: derives the profile PDA, fetches the
account info, returns the sentinel without submitting when the account already
exists, and otherwise submits the createUserProfile transaction. -/
def createUserProfile (walletKey : Option String) (l : Ledger) :
    List String × Except String (Ledger × String) :=
  match walletKey with
  | none => ([], .error "Wallet not connected")
  | some pk =>
    let userProfilePDA := getUserProfilePDA pk
    match lookupAcct l userProfilePDA with
    | some _ => ([], .ok (l, "already-initialized"))
    | none =>
      match ledgerCreateUserProfile l userProfilePDA with
      | .ok l2 => (["createUserProfile"], .ok (l2, "txsig"))
      | .error e => (["createUserProfile"], .error e)

/-- useSoldriveProgram.createFile: derives the three PDAs, reads config and
profile info, lazily initializes the config and the caller profile when
absent, then submits createFile. -/
def createFile (walletKey : Option String) (l : Ledger) (fileName : String)
    (fileSize : Nat) (fileHash : List Nat) (chunkCount : Nat)
    (timestamp : Int) : List String × Except String (Ledger × String) :=
  match walletKey with
  | none => ([], .error "Wallet not connected")
  | some pk =>
    let fileRecordPDA := getFileRecordPDA pk fileName
    let configPDA := getConfigPDA
    let userProfilePDA := getUserProfilePDA pk
    let configInfo := lookupAcct l configPDA
    let profileInfo := lookupAcct l userProfilePDA
    let step2 := fun (txs1 : List String) (l1 : Ledger) =>
      match ledgerCreateFile l1 fileRecordPDA pk fileName fileSize fileHash
          chunkCount timestamp with
      | .ok l2 => (txs1 ++ ["createFile"], Except.ok (l2, "txsig"))
      | .error e => (txs1 ++ ["createFile"], Except.error e)
    let step1 := fun (txs0 : List String) (l0 : Ledger) =>
      if profileInfo.isNone then
        match createUserProfile (some pk) l0 with
        | (t, .ok (l1, _)) => step2 (txs0 ++ t) l1
        | (t, .error e) => (txs0 ++ t, Except.error e)
      else step2 txs0 l0
    if configInfo.isNone then
      match ledgerInitialize l configPDA with
      | .ok l1 => step1 ["initialize"] l1
      | .error e => (["initialize"], .error e)
    else step1 [] l

/-- useSoldriveProgram.registerStorage. -/
def registerStorage (walletKey : Option String) (l : Ledger)
    (fileName ipfsCid : String) (merkleRoot : List Nat) :
    List String × Except String (Ledger × String) :=
  match walletKey with
  | none => ([], .error "Wallet not connected")
  | some pk =>
    let _ := merkleRoot
    let fileRecordPDA := getFileRecordPDA pk fileName
    match ledgerRegisterStorage l fileRecordPDA pk ipfsCid with
    | .ok l2 => (["registerStorage"], .ok (l2, "txsig"))
    | .error e => (["registerStorage"], .error e)

/-- useSoldriveProgram.finalizeFile. -/
def finalizeFile (walletKey : Option String) (l : Ledger) (fileName : String) :
    List String × Except String (Ledger × String) :=
  match walletKey with
  | none => ([], .error "Wallet not connected")
  | some pk =>
    let fileRecordPDA := getFileRecordPDA pk fileName
    match ledgerFinalizeFile l fileRecordPDA pk with
    | .ok l2 => (["finalizeFile"], .ok (l2, "txsig"))
    | .error e => (["finalizeFile"], .error e)

/-- useSoldriveProgram.makePublic. -/
def makePublic (walletKey : Option String) (l : Ledger) (fileName : String) :
    List String × Except String (Ledger × String) :=
  match walletKey with
  | none => ([], .error "Wallet not connected")
  | some pk =>
    let fileRecordPDA := getFileRecordPDA pk fileName
    match ledgerMakePublic l fileRecordPDA pk with
    | .ok l2 => (["makePublic"], .ok (l2, "txsig"))
    | .error e => (["makePublic"], .error e)

/-- useSoldriveProgram.makePrivate. -/
def makePrivate (walletKey : Option String) (l : Ledger) (fileName : String) :
    List String × Except String (Ledger × String) :=
  match walletKey with
  | none => ([], .error "Wallet not connected")
  | some pk =>
    let fileRecordPDA := getFileRecordPDA pk fileName
    match ledgerMakePrivate l fileRecordPDA pk with
    | .ok l2 => (["makePrivate"], .ok (l2, "txsig"))
    | .error e => (["makePrivate"], .error e)

/-- useSoldriveProgram.grantAccess. -/
def grantAccess (walletKey : Option String) (l : Ledger)
    (fileName sharedWithAddress : String) (accessLevel : AccessLevel)
    (expiresAt : Option Int) : List String × Except String (Ledger × String) :=
  match walletKey with
  | none => ([], .error "Wallet not connected")
  | some pk =>
    let sharedWith := sharedWithAddress
    let fileRecordPDA := getFileRecordPDA pk fileName
    let sharedAccessPDA := getSharedAccessPDA fileRecordPDA sharedWith
    match ledgerGrantAccess l sharedAccessPDA fileRecordPDA pk sharedWith
        accessLevel expiresAt with
    | .ok l2 => (["grantAccess"], .ok (l2, "txsig"))
    | .error e => (["grantAccess"], .error e)

/-- useSoldriveProgram.revokeAccess. -/
def revokeAccess (walletKey : Option String) (l : Ledger)
    (fileName sharedWithAddress : String) :
    List String × Except String (Ledger × String) :=
  match walletKey with
  | none => ([], .error "Wallet not connected")
  | some pk =>
    let sharedWith := sharedWithAddress
    let fileRecordPDA := getFileRecordPDA pk fileName
    let sharedAccessPDA := getSharedAccessPDA fileRecordPDA sharedWith
    match ledgerRevokeAccess l sharedAccessPDA pk with
    | .ok l2 => (["revokeAccess"], .ok (l2, "txsig"))
    | .error e => (["revokeAccess"], .error e)

def sampleFilePDA : Seed := getFileRecordPDA "ownerA" "report.pdf"

/-- A grant that is still flagged active but whose expiry timestamp 100 lies
in the past for any query time after 100 (e.g. 200). -/
def expiredGrant : ProgramAccount SharedAccessAccount :=
  ⟨getSharedAccessPDA sampleFilePDA "granteeB",
   ⟨sampleFilePDA, "ownerA", "granteeB", .readAccess, some 100, true⟩⟩

/-- C1 counterexample: the claim says a grant with `expiresAt` in the past
never appears in the view results; but both views return the expired grant
(`expiresAt = 100`, past at query time 200) because they filter on `isActive`
only and never read `expiresAt` or a clock. -/
theorem c1_counterexample :
    getFilesSharedWithMe "granteeB" [expiredGrant] (fun _ => none)
      = [{ sharedAccess := expiredGrant, file := none }] ∧
    getFilesIShared "ownerA" [expiredGrant] (fun _ => none)
      = [{ sharedAccess := expiredGrant, file := none }] ∧
    expiredGrant.account.isActive = true ∧
    expiredGrant.account.expiresAt = some 100 ∧ (100 : Int) < 200 := by
  refine ⟨rfl, rfl, rfl, rfl, by norm_num⟩

/-- C1 amended: the entries returned by getFilesSharedWithMe (resp.
getFilesIShared) are exactly the grants whose shared_with (resp. owner) field
matches the caller and whose active flag is true, each joined with its parent
record; `expiresAt` is not consulted, so a grant with past expiry and a true
active flag does appear. -/
theorem c1_views_filter_on_active_only :
    ∀ (walletKey : String) (grants : List (ProgramAccount SharedAccessAccount))
      (fetchFile : Seed → Option FileRecordAccount) (e : SharedEntry),
      (e ∈ getFilesSharedWithMe walletKey grants fetchFile ↔
        ∃ sa ∈ grants, sa.account.sharedWith = walletKey ∧
          sa.account.isActive = true ∧ e = joinEntry fetchFile sa) ∧
      (e ∈ getFilesIShared walletKey grants fetchFile ↔
        ∃ sa ∈ grants, sa.account.owner = walletKey ∧
          sa.account.isActive = true ∧ e = joinEntry fetchFile sa) := by
  intro walletKey grants fetchFile e
  constructor
  · rw [getFilesSharedWithMe, mem_filter_filter_map]
    simp [beq_iff_eq]
  · rw [getFilesIShared, mem_filter_filter_map]
    simp [beq_iff_eq]

/-- An active, unexpired grant used to witness the null-file join. -/
def activeGrant : ProgramAccount SharedAccessAccount :=
  ⟨getSharedAccessPDA sampleFilePDA "granteeC",
   ⟨sampleFilePDA, "ownerA", "granteeC", .readAccess, none, true⟩⟩

/-- C3: an active grant whose parent FileRecord fetch fails still appears in
the view output with `file = none`, and the output length always equals the
number of matching active grants — one failed parent fetch never discards the
list. -/
theorem c3_failed_fetch_yields_null_entry :
    (∀ (walletKey : String) (grants : List (ProgramAccount SharedAccessAccount))
        (fetchFile : Seed → Option FileRecordAccount) sa,
        sa ∈ grants → sa.account.sharedWith = walletKey →
        sa.account.isActive = true → fetchFile sa.account.fileRecord = none →
        ({ sharedAccess := sa, file := none } : SharedEntry)
          ∈ getFilesSharedWithMe walletKey grants fetchFile) ∧
    (∀ walletKey grants fetchFile,
        (getFilesSharedWithMe walletKey grants fetchFile).length =
          ((grants.filter (fun a => a.account.sharedWith == walletKey)).filter
            (fun a => a.account.isActive)).length) ∧
    (∀ (walletKey : String) (grants : List (ProgramAccount SharedAccessAccount))
        (fetchFile : Seed → Option FileRecordAccount) sa,
        sa ∈ grants → sa.account.owner = walletKey →
        sa.account.isActive = true → fetchFile sa.account.fileRecord = none →
        ({ sharedAccess := sa, file := none } : SharedEntry)
          ∈ getFilesIShared walletKey grants fetchFile) ∧
    (∀ walletKey grants fetchFile,
        (getFilesIShared walletKey grants fetchFile).length =
          ((grants.filter (fun a => a.account.owner == walletKey)).filter
            (fun a => a.account.isActive)).length) := by
  refine ⟨?_, ?_, ?_, ?_⟩
  · intro walletKey grants fetchFile sa h1 h2 h3 h4
    rw [getFilesSharedWithMe, mem_filter_filter_map]
    exact ⟨sa, h1, by simp [h2], h3, by simp [joinEntry, h4]⟩
  · intro walletKey grants fetchFile
    simp [getFilesSharedWithMe]
  · intro walletKey grants fetchFile sa h1 h2 h3 h4
    rw [getFilesIShared, mem_filter_filter_map]
    exact ⟨sa, h1, by simp [h2], h3, by simp [joinEntry, h4]⟩
  · intro walletKey grants fetchFile
    simp [getFilesIShared]

theorem c3_failed_fetch_yields_null_entry_witness :
    ({ sharedAccess := activeGrant, file := none } : SharedEntry)
      ∈ getFilesSharedWithMe "granteeC" [activeGrant] (fun _ => none) ∧
    ({ sharedAccess := activeGrant, file := none } : SharedEntry)
      ∈ getFilesIShared "ownerA" [activeGrant] (fun _ => none) := by
  constructor
  · exact c3_failed_fetch_yields_null_entry.1 "granteeC" [activeGrant]
      (fun _ => none) activeGrant (by simp) rfl rfl rfl
  · exact c3_failed_fetch_yields_null_entry.2.2.1 "ownerA" [activeGrant]
      (fun _ => none) activeGrant (by simp) rfl rfl rfl

/-- C5: makePublic is idempotent from the caller's perspective: on a record
owned by the caller the first call succeeds and sets isPublic true; invoking
it again on the resulting ledger succeeds as a confirmed no-op (same
signature shape, ledger state unchanged) and leaves isPublic = true. -/
theorem c5_makePublic_idempotent :
    ∀ (pk : String) (l : Ledger) (fileName : String) (r : FileRecordAccount),
      lookupAcct l (getFileRecordPDA pk fileName) = some (.fileData r) →
      r.owner = pk →
      ∃ l2,
        makePublic (some pk) l fileName = (["makePublic"], .ok (l2, "txsig")) ∧
        lookupAcct l2 (getFileRecordPDA pk fileName)
          = some (.fileData { r with isPublic := true }) ∧
        makePublic (some pk) l2 fileName = (["makePublic"], .ok (l2, "txsig")) := by
  intro pk l fileName r h howner
  obtain ⟨ro, rn, rs, rh, rc, rt, rp, rst, rpub⟩ := r
  change ro = pk at howner
  subst howner
  refine ⟨setAcct l (getFileRecordPDA ro fileName)
    (.fileData ⟨ro, rn, rs, rh, rc, rt, rp, rst, true⟩), ?_, ?_, ?_⟩
  · simp [makePublic, ledgerMakePublic, h]
  · exact lookupAcct_setAcct_same l _ _ _ h
  · have h2 : lookupAcct
        (setAcct l (getFileRecordPDA ro fileName)
          (.fileData ⟨ro, rn, rs, rh, rc, rt, rp, rst, true⟩))
        (getFileRecordPDA ro fileName)
        = some (.fileData ⟨ro, rn, rs, rh, rc, rt, rp, rst, true⟩) :=
      lookupAcct_setAcct_same l _ _ _ h
    have h3 := setAcct_lookup_self _ _ _ h2
    simp [makePublic, ledgerMakePublic, h2, h3]

def demoRecord : FileRecordAccount :=
  ⟨"ownerA", "report.pdf", 2048, [1, 2], 4, 1700000000, none, .uploading, false⟩

def demoLedger : Ledger := [(getFileRecordPDA "ownerA" "report.pdf", .fileData demoRecord)]

theorem c5_makePublic_idempotent_witness :
    ∃ l2,
      makePublic (some "ownerA") demoLedger "report.pdf"
        = (["makePublic"], .ok (l2, "txsig")) ∧
      lookupAcct l2 (getFileRecordPDA "ownerA" "report.pdf")
        = some (.fileData { demoRecord with isPublic := true }) ∧
      makePublic (some "ownerA") l2 "report.pdf"
        = (["makePublic"], .ok (l2, "txsig")) :=
  c5_makePublic_idempotent "ownerA" demoLedger "report.pdf" demoRecord
    (by decide) rfl

/-- C7: with no wallet identity connected (`walletKey = none`, under which the
anchor program object is also null), every mutating wrapper fails with the
'Wallet not connected' error and submits no transaction: the guard is the
first statement of each wrapper, before any request construction. -/
theorem c7_wallet_not_connected_guard :
    ∀ (l : Ledger) (fileName ipfsCid sharedWithAddress : String)
      (fileSize : Nat) (fileHash merkleRoot : List Nat) (chunkCount : Nat)
      (timestamp : Int) (accessLevel : AccessLevel) (expiresAt : Option Int),
      createUserProfile none l = ([], .error "Wallet not connected") ∧
      createFile none l fileName fileSize fileHash chunkCount timestamp
        = ([], .error "Wallet not connected") ∧
      registerStorage none l fileName ipfsCid merkleRoot
        = ([], .error "Wallet not connected") ∧
      finalizeFile none l fileName = ([], .error "Wallet not connected") ∧
      makePublic none l fileName = ([], .error "Wallet not connected") ∧
      makePrivate none l fileName = ([], .error "Wallet not connected") ∧
      grantAccess none l fileName sharedWithAddress accessLevel expiresAt
        = ([], .error "Wallet not connected") ∧
      revokeAccess none l fileName sharedWithAddress
        = ([], .error "Wallet not connected") := by
  intro l fileName ipfsCid sharedWithAddress fileSize fileHash merkleRoot
    chunkCount timestamp accessLevel expiresAt
  exact ⟨rfl, rfl, rfl, rfl, rfl, rfl, rfl, rfl⟩

/-- C9: createUserProfile is idempotent at the client: when an account exists
at the derived profile address the call returns the sentinel
'already-initialized' submitting nothing; a transaction is submitted only
when no account exists; and after a successful creating call, a second call
is a pure no-op returning the sentinel. -/
theorem c9_createUserProfile_idempotent :
    (∀ (pk : String) (l : Ledger),
        (lookupAcct l (getUserProfilePDA pk)).isSome = true →
        createUserProfile (some pk) l = ([], .ok (l, "already-initialized"))) ∧
    (∀ (pk : String) (l : Ledger),
        (createUserProfile (some pk) l).1 ≠ [] →
        lookupAcct l (getUserProfilePDA pk) = none) ∧
    (∀ (pk : String) (l l1 : Ledger) (s : String),
        createUserProfile (some pk) l = (["createUserProfile"], .ok (l1, s)) →
        createUserProfile (some pk) l1
          = ([], .ok (l1, "already-initialized"))) := by
  refine ⟨?_, ?_, ?_⟩
  · intro pk l h
    rcases hl : lookupAcct l (getUserProfilePDA pk) with _ | v
    · rw [hl] at h; simp at h
    · simp [createUserProfile, hl]
  · intro pk l h
    rcases hl : lookupAcct l (getUserProfilePDA pk) with _ | v
    · rfl
    · exfalso; apply h; simp [createUserProfile, hl]
  · intro pk l l1 s h
    rcases hl : lookupAcct l (getUserProfilePDA pk) with _ | v
    · simp [createUserProfile, hl, ledgerCreateUserProfile] at h
      obtain ⟨h1, h2⟩ := h
      rw [← h1]
      simp [createUserProfile, lookupAcct_insertAcct]
    · simp [createUserProfile, hl] at h

theorem c9_createUserProfile_idempotent_witness :
    createUserProfile (some "ownerA")
        [(getUserProfilePDA "ownerA", AccountData.profileData)]
      = ([], .ok ([(getUserProfilePDA "ownerA", AccountData.profileData)],
          "already-initialized")) ∧
    createUserProfile (some "ownerA")
        (insertAcct [] (getUserProfilePDA "ownerA") .profileData)
      = ([], .ok (insertAcct [] (getUserProfilePDA "ownerA") .profileData,
          "already-initialized")) := by
  constructor
  · exact c9_createUserProfile_idempotent.1 "ownerA"
      [(getUserProfilePDA "ownerA", AccountData.profileData)] (by decide)
  · exact c9_createUserProfile_idempotent.2.2 "ownerA" []
      (insertAcct [] (getUserProfilePDA "ownerA") .profileData) "txsig" rfl

/-- Kind of a toast notification shown to the user. -/
inductive NotifKind where
  | infoKind
  | successKind
  | errorKind
deriving DecidableEq, Repr

structure Notif where
  kind : NotifKind
  title : String
deriving DecidableEq, Repr

/-- JS `new Set(prev).add(k)` on a duplicate-free list. -/
def setAdd {α : Type} [DecidableEq α] (s : List α) (k : α) : List α :=
  if k ∈ s then s else k :: s

/-- JS `next.delete(k)`. -/
def setDel {α : Type} [DecidableEq α] (s : List α) (k : α) : List α :=
  s.erase k

theorem setDel_setAdd {α : Type} [DecidableEq α] (s : List α) (k : α)
    (h : k ∉ s) : setDel (setAdd s k) k = s := by
  simp [setAdd, setDel, h]

def charsLeadWith : List Char → List Char → Bool
  | [], _ => true
  | _ :: _, [] => false
  | a :: as, b :: bs => a == b && charsLeadWith as bs

def charsContain (pat : List Char) : List Char → Bool
  | [] => charsLeadWith pat []
  | c :: rest => charsLeadWith pat (c :: rest) || charsContain pat rest

/-- JS `hay.includes(pat)` on strings. -/
def strIncludes (hay pat : String) : Bool := charsContain pat.data hay.data

/-- Outcome of FileList.handlePrivacyToggle: either the duplicate guard fires
(`toast.error('Transaction in progress', ...)` and return) or the confirm
dialog opens. -/
inductive ToggleDecision where
  | rejected (n : Notif)
  | dialogOpened
deriving DecidableEq, Repr

/-- FileList.handlePrivacyToggle: rejects when the target file's key is in
processingFiles, otherwise opens the confirmation dialog (newPrivacy is only
stored in the dialog state and is threaded by privacyToggleFlow). -/
def handlePrivacyToggle (processingFiles : List Seed) (filePk : Seed) :
    ToggleDecision :=
  if filePk ∈ processingFiles then
    .rejected ⟨.errorKind, "Transaction in progress"⟩
  else .dialogOpened

/-- Observable result of one run of FileList.executePrivacyToggle:
notifications in order, rpc submissions attempted, whether a file-list
refresh was scheduled, and the processingFiles set after every scheduled
callback (the 1500 ms success timer included) has run. -/
structure ToggleRun where
  notifications : List Notif
  txs : List String
  refreshScheduled : Bool
  pendingAfter : List Seed
deriving DecidableEq, Repr

/-- FileList.executePrivacyToggle: early return when the dialog has no file;
otherwise add the file key to processingFiles, submit makePublic or
makePrivate (`rpc` is the submission outcome), and on success schedule
refresh + removal, on error remove immediately and branch on whether the
message includes 'AlreadyProcessed' (refresh scheduled, distinct toast) or
not (generic 'Transaction Failed' toast, no refresh). -/
def executePrivacyToggle (pending : List Seed)
    (dialogFile : Option (ProgramAccount FileRecordAccount))
    (newPrivacy : Bool) (rpc : Except String String) : ToggleRun :=
  match dialogFile with
  | none => ⟨[], [], false, pending⟩
  | some f =>
    let p1 := setAdd pending f.publicKey
    let txName := if newPrivacy then "makePublic" else "makePrivate"
    match rpc with
    | .ok _ =>
        ⟨[⟨.infoKind, "Updating privacy..."⟩, ⟨.successKind, "Success!"⟩],
         [txName], true, setDel p1 f.publicKey⟩
    | .error m =>
        if strIncludes m "AlreadyProcessed" then
          ⟨[⟨.infoKind, "Updating privacy..."⟩,
            ⟨.errorKind, "Transaction Already Processed"⟩],
           [txName], true, setDel p1 f.publicKey⟩
        else
          ⟨[⟨.infoKind, "Updating privacy..."⟩,
            ⟨.errorKind, "Transaction Failed"⟩],
           [txName], false, setDel p1 f.publicKey⟩

/-- One end-to-end privacy-toggle attempt: handlePrivacyToggle, then, when the
dialog opened and the user confirmed, executePrivacyToggle. -/
def privacyToggleFlow (processingFiles : List Seed)
    (file : ProgramAccount FileRecordAccount) (newPrivacy confirm : Bool)
    (rpc : Except String String) : ToggleRun :=
  match handlePrivacyToggle processingFiles file.publicKey with
  | .rejected n => ⟨[n], [], false, processingFiles⟩
  | .dialogOpened =>
      if confirm then executePrivacyToggle processingFiles (some file) newPrivacy rpc
      else ⟨[], [], false, processingFiles⟩

inductive RevokeOutcome where
  | cannotRevoke
  | duplicateSilent
  | revoked
  | revokeFailed
deriving DecidableEq, Repr

/-- Observable result of one run of SharedFiles.handleRevoke. -/
structure RevokeRun where
  outcome : RevokeOutcome
  notifications : List Notif
  txs : List String
  keysAfter : List String
deriving DecidableEq, Repr

/-- The pending key `fileName-sharedWith` used by SharedFiles.handleRevoke. -/
def revokeKeyOf (fileName sharedWith : String) : String :=
  fileName ++ "-" ++ sharedWith

/-- SharedFiles.handleRevoke: 'Cannot revoke' toast and early return when the
entry has no file reference; bare `return` (no toast) when the key is already
in revokingKeys; otherwise add the key, toast 'Revoking access...', submit
revokeAccess, toast success or 'Failed to revoke', and remove the key in the
`finally` block. -/
def handleRevoke (revokingKeys : List String) (entry : SharedEntry)
    (rpc : Except String String) : RevokeRun :=
  match entry.file with
  | none => ⟨.cannotRevoke, [⟨.errorKind, "Cannot revoke"⟩], [], revokingKeys⟩
  | some filePA =>
    let key := revokeKeyOf filePA.account.fileName
      entry.sharedAccess.account.sharedWith
    if key ∈ revokingKeys then ⟨.duplicateSilent, [], [], revokingKeys⟩
    else
      let ks := setAdd revokingKeys key
      match rpc with
      | .ok _ =>
          ⟨.revoked,
           [⟨.infoKind, "Revoking access..."⟩, ⟨.successKind, "Access revoked"⟩],
           ["revokeAccess"], setDel ks key⟩
      | .error _ =>
          ⟨.revokeFailed,
           [⟨.infoKind, "Revoking access..."⟩, ⟨.errorKind, "Failed to revoke"⟩],
           ["revokeAccess"], setDel ks key⟩

/-- A shared-by-me entry whose parent record fetch succeeded. -/
def demoSharedEntry : SharedEntry :=
  { sharedAccess := ⟨getSharedAccessPDA sampleFilePDA "granteeB",
      ⟨sampleFilePDA, "ownerA", "granteeB", .readAccess, none, true⟩⟩,
    file := some ⟨sampleFilePDA, demoRecord⟩ }

/-- A shared-by-me entry whose parent record fetch failed (`file = null`). -/
def nullFileEntry : SharedEntry :=
  { sharedAccess := ⟨getSharedAccessPDA sampleFilePDA "granteeB",
      ⟨sampleFilePDA, "ownerA", "granteeB", .readAccess, none, true⟩⟩,
    file := none }

/-- C2 counterexample: the claim says a duplicate mutating request on a
pending target is rejected with a distinct 'already in progress' condition
and is not silently dropped; but a duplicate revoke for a key already in
revokingKeys returns with NO notification at all — a silent drop (only the
no-second-transaction half holds). -/
theorem c2_counterexample :
    handleRevoke [revokeKeyOf "report.pdf" "granteeB"] demoSharedEntry
        (.ok "sig")
      = ⟨.duplicateSilent, [], [], [revokeKeyOf "report.pdf" "granteeB"]⟩ ∧
    (handleRevoke [revokeKeyOf "report.pdf" "granteeB"] demoSharedEntry
        (.ok "sig")).notifications = [] := by
  exact ⟨rfl, rfl⟩

/-- C2 amended: a duplicate privacy toggle on a pending file is rejected with
the distinct 'Transaction in progress' error notification and submits no
transaction; a duplicate revoke on a pending key also submits no transaction,
but it is dropped silently, with no notification. -/
theorem c2_duplicate_guard :
    (∀ (processingFiles : List Seed) (file : ProgramAccount FileRecordAccount)
        (newPrivacy confirm : Bool) (rpc : Except String String),
        file.publicKey ∈ processingFiles →
        privacyToggleFlow processingFiles file newPrivacy confirm rpc
          = ⟨[⟨.errorKind, "Transaction in progress"⟩], [], false,
              processingFiles⟩) ∧
    (∀ (revokingKeys : List String) (entry : SharedEntry)
        (rpc : Except String String) (filePA : ProgramAccount FileRecordAccount),
        entry.file = some filePA →
        revokeKeyOf filePA.account.fileName
          entry.sharedAccess.account.sharedWith ∈ revokingKeys →
        handleRevoke revokingKeys entry rpc
          = ⟨.duplicateSilent, [], [], revokingKeys⟩) := by
  constructor
  · intro processingFiles file newPrivacy confirm rpc h
    simp [privacyToggleFlow, handlePrivacyToggle, h]
  · intro revokingKeys entry rpc filePA hfile hkey
    simp [handleRevoke, hfile, hkey]

theorem c2_duplicate_guard_witness :
    privacyToggleFlow [sampleFilePDA] ⟨sampleFilePDA, demoRecord⟩ true true
        (.ok "sig")
      = ⟨[⟨.errorKind, "Transaction in progress"⟩], [], false,
          [sampleFilePDA]⟩ ∧
    handleRevoke [revokeKeyOf "report.pdf" "granteeB"] demoSharedEntry
        (.error "boom")
      = ⟨.duplicateSilent, [], [], [revokeKeyOf "report.pdf" "granteeB"]⟩ := by
  constructor
  · exact c2_duplicate_guard.1 [sampleFilePDA] ⟨sampleFilePDA, demoRecord⟩
      true true (.ok "sig") (by simp)
  · exact c2_duplicate_guard.2 [revokeKeyOf "report.pdf" "granteeB"]
      demoSharedEntry (.error "boom") ⟨sampleFilePDA, demoRecord⟩ rfl
      (by simp [demoSharedEntry, demoRecord])

/-- C6 counterexample: the claim says an AlreadyProcessed failure triggers a
refresh RATHER THAN presenting an error banner; the refresh is indeed
triggered and the error is caught, but an error notification 'Transaction
Already Processed' IS presented. -/
theorem c6_counterexample :
    executePrivacyToggle [] (some ⟨sampleFilePDA, demoRecord⟩) true
        (.error "failed: custom program error: AlreadyProcessed")
      = ⟨[⟨.infoKind, "Updating privacy..."⟩,
          ⟨.errorKind, "Transaction Already Processed"⟩],
         ["makePublic"], true, []⟩ ∧
    (⟨NotifKind.errorKind, "Transaction Already Processed"⟩ : Notif)
      ∈ (executePrivacyToggle [] (some ⟨sampleFilePDA, demoRecord⟩) true
          (.error "failed: custom program error: AlreadyProcessed")).notifications := by
  refine ⟨by decide, by decide⟩

/-- C6 amended: a privacy-toggle failure whose message includes
'AlreadyProcessed' is caught at the handler (the run completes normally, no
fault propagates), schedules a file-list refresh, and is surfaced with the
distinct 'Transaction Already Processed' error notification instead of the
generic no-refresh 'Transaction Failed' banner. -/
theorem c6_alreadyProcessed_refresh :
    ∀ (pending : List Seed) (f : ProgramAccount FileRecordAccount)
      (newPrivacy : Bool) (m : String),
      strIncludes m "AlreadyProcessed" = true →
      executePrivacyToggle pending (some f) newPrivacy (.error m)
        = ⟨[⟨.infoKind, "Updating privacy..."⟩,
            ⟨.errorKind, "Transaction Already Processed"⟩],
           [if newPrivacy then "makePublic" else "makePrivate"], true,
           setDel (setAdd pending f.publicKey) f.publicKey⟩ := by
  intro pending f newPrivacy m hm
  simp [executePrivacyToggle, hm]

theorem c6_alreadyProcessed_refresh_witness :
    executePrivacyToggle [] (some ⟨sampleFilePDA, demoRecord⟩) false
        (.error "AlreadyProcessed")
      = ⟨[⟨.infoKind, "Updating privacy..."⟩,
          ⟨.errorKind, "Transaction Already Processed"⟩],
         ["makePrivate"], true,
         setDel (setAdd [] sampleFilePDA) sampleFilePDA⟩ :=
  c6_alreadyProcessed_refresh [] ⟨sampleFilePDA, demoRecord⟩ false
    "AlreadyProcessed" (by decide)

/-- C8: the pending-set add/remove pair is symmetric on every exit path: a
privacy-toggle run on a not-yet-pending file leaves processingFiles exactly
as it found it for every rpc outcome (success removal via the scheduled
timer, error removal in the catch), the no-file early return touches
nothing, and handleRevoke likewise restores revokingKeys on the submission
paths and on the early returns, so no target stays pending after its
operation finished. -/
theorem c8_pending_set_symmetric :
    (∀ (pending : List Seed) (f : ProgramAccount FileRecordAccount)
        (newPrivacy : Bool) (rpc : Except String String),
        f.publicKey ∉ pending →
        (executePrivacyToggle pending (some f) newPrivacy rpc).pendingAfter
          = pending) ∧
    (∀ (pending : List Seed) (newPrivacy : Bool) (rpc : Except String String),
        (executePrivacyToggle pending none newPrivacy rpc).pendingAfter
          = pending) ∧
    (∀ (revokingKeys : List String) (entry : SharedEntry)
        (rpc : Except String String) (filePA : ProgramAccount FileRecordAccount),
        entry.file = some filePA →
        revokeKeyOf filePA.account.fileName
          entry.sharedAccess.account.sharedWith ∉ revokingKeys →
        (handleRevoke revokingKeys entry rpc).keysAfter = revokingKeys) ∧
    (∀ (revokingKeys : List String) (entry : SharedEntry)
        (rpc : Except String String),
        entry.file = none →
        (handleRevoke revokingKeys entry rpc).keysAfter = revokingKeys) := by
  refine ⟨?_, ?_, ?_, ?_⟩
  · intro pending f newPrivacy rpc h
    cases rpc with
    | ok s => simp [executePrivacyToggle, setDel_setAdd _ _ h]
    | error m =>
        by_cases hm : strIncludes m "AlreadyProcessed" = true
        · simp [executePrivacyToggle, hm, setDel_setAdd _ _ h]
        · simp only [Bool.not_eq_true] at hm
          simp [executePrivacyToggle, hm, setDel_setAdd _ _ h]
  · intro pending newPrivacy rpc
    rfl
  · intro revokingKeys entry rpc filePA hfile hkey
    cases rpc with
    | ok s => simp [handleRevoke, hfile, hkey, setDel_setAdd _ _ hkey]
    | error m => simp [handleRevoke, hfile, hkey, setDel_setAdd _ _ hkey]
  · intro revokingKeys entry rpc hfile
    simp [handleRevoke, hfile]

theorem c8_pending_set_symmetric_witness :
    (executePrivacyToggle [] (some ⟨sampleFilePDA, demoRecord⟩) true
        (.error "user rejected")).pendingAfter = [] ∧
    (executePrivacyToggle [sampleFilePDA] none true (.ok "sig")).pendingAfter
      = [sampleFilePDA] ∧
    (handleRevoke [] demoSharedEntry (.ok "sig")).keysAfter = [] ∧
    (handleRevoke ["k"] nullFileEntry (.ok "sig")).keysAfter = ["k"] := by
  refine ⟨?_, ?_, ?_, ?_⟩
  · exact c8_pending_set_symmetric.1 [] ⟨sampleFilePDA, demoRecord⟩ true
      (.error "user rejected") (by simp)
  · exact c8_pending_set_symmetric.2.1 [sampleFilePDA] true (.ok "sig")
  · exact c8_pending_set_symmetric.2.2.1 [] demoSharedEntry (.ok "sig")
      ⟨sampleFilePDA, demoRecord⟩ rfl (by simp)
  · exact c8_pending_set_symmetric.2.2.2 ["k"] nullFileEntry (.ok "sig") rfl

/-- C10: a shared-by-me entry whose parent file reference is null gets the
'Cannot revoke' error toast and no revokeAccess transaction; the grant cannot
be revoked through this handler. -/
theorem c10_null_file_cannot_revoke :
    ∀ (revokingKeys : List String) (entry : SharedEntry)
      (rpc : Except String String),
      entry.file = none →
      handleRevoke revokingKeys entry rpc
        = ⟨.cannotRevoke, [⟨.errorKind, "Cannot revoke"⟩], [], revokingKeys⟩ := by
  intro revokingKeys entry rpc hfile
  simp [handleRevoke, hfile]

theorem c10_null_file_cannot_revoke_witness :
    handleRevoke [] nullFileEntry (.ok "sig")
      = ⟨.cannotRevoke, [⟨.errorKind, "Cannot revoke"⟩], [], []⟩ :=
  c10_null_file_cannot_revoke [] nullFileEntry (.ok "sig") rfl

end Soldrive
